import Mathlib

/-!
Verification development for the threaded incremental render scheduler in
`src/rprblender/render/scene.py` of the RadeonProRender Blender add-on.

The Python classes `UpdateBlock`, `UpdateData`, `SceneRenderer`,
`RenderThread` and `SceneRendererThreaded` are shallowly embedded as Lean
structures and pure state-passing functions.  Side effects on external
collaborators (the render device, the render-layers object, the scene-sync
object) are recorded as explicit event traces so that temporal claims
(ordering of detach/attach, which update path ran) can be stated.
Machine floats used by the source for the iteration-count formula are
modelled with natural-number floor division (the values involved are small
integers), and wall-clock readings with rationals.
-/

/-! ## Value types of the four update channels

Resolutions and regions arrive from the host as small numeric tuples,
AOV settings and cameras as opaque objects; they are modelled as numbers
(only equality on them matters to the scheduler).  A Python `None` is
`Option.none`. -/

abbrev Resolution := ℕ × ℕ

abbrev Region := ℕ × ℕ × ℕ × ℕ

abbrev AovSettings := ℕ

abbrev Camera := ℕ

/-- Model of `numpy.array_equal` on optional array-like values: `None`
compares equal only to `None`, two present values elementwise (here:
structural) equality. -/
def optEq {α : Type} [DecidableEq α] (a b : Option α) : Bool :=
  decide (a = b)

/-- Equality predicate of the `aov` block:
`lambda old, new: old is not None and old == new`. -/
def aovEqual (old new_ : Option AovSettings) : Bool :=
  old.isSome && decide (old = new_)

/-- Model of `RenderCamera.is_same` (an external structural comparison). -/
def cameraIsSame (a b : Camera) : Bool :=
  decide (a = b)

/-- Equality predicate of the `render_camera` block:
`lambda old, new: old is not None and old.is_same(new)`. -/
def cameraEqual (old new_ : Option Camera) : Bool :=
  match old, new_ with
  | some o, some n => cameraIsSame o n
  | _, _ => false

/-! ## UpdateBlock — single-slot pending-value cell -/

/-- Python class `UpdateBlock`: a slot `value`, a flag `has_value`, and the
caller-supplied equality predicate `equal`.  `del_value`/`pop_value` clear
only the flag; the stale `value` stays in the slot, as in the source. -/
structure UpdateBlock (α : Type) where
  value : α
  has_value : Bool
  equal : α → α → Bool

/-- Python `UpdateBlock.set_value`. -/
def UpdateBlock.set_value {α : Type} (b : UpdateBlock α) (v : α) : UpdateBlock α :=
  { b with has_value := true, value := v }

/-- Python `UpdateBlock.pop_value`: clears the flag and returns the value. -/
def UpdateBlock.pop_value {α : Type} (b : UpdateBlock α) : UpdateBlock α × α :=
  ({ b with has_value := false }, b.value)

/-- Python `UpdateBlock.del_value`. -/
def UpdateBlock.del_value {α : Type} (b : UpdateBlock α) : UpdateBlock α :=
  { b with has_value := false }

/-! ## UpdateData — the coalescing inbox -/

/-- Python class `UpdateData`: four independent `UpdateBlock`s. -/
structure UpdateData where
  render_region : UpdateBlock (Option Region)
  render_resolution : UpdateBlock (Option Resolution)
  aov : UpdateBlock (Option AovSettings)
  render_camera : UpdateBlock (Option Camera)

/-- Python `UpdateData.__init__`: the region block is constructed with the
constructor's `has_value=True` default (and `value=None`); the other three
blocks pass `has_value=False` explicitly. -/
def UpdateData.init : UpdateData :=
  { render_region := { value := none, has_value := true, equal := optEq }
    render_resolution := { value := none, has_value := false, equal := optEq }
    aov := { value := none, has_value := false, equal := aovEqual }
    render_camera := { value := none, has_value := false, equal := cameraEqual } }

/-- Python `UpdateData.update_block(block, block_value_current, block_value_new)`:

* if the block already holds a pending value `equal` to the new one, skip;
* else if the new value is `equal` to the currently applied value, clear any
  pending value (`del_value`) and store nothing;
* else store the new value (`set_value`). -/
def UpdateData.update_block {α : Type} (b : UpdateBlock α) (cur new_ : α) :
    UpdateBlock α :=
  if b.has_value && b.equal b.value new_ then b
  else if b.equal cur new_ then
    (if b.has_value then b.del_value else b)
  else b.set_value new_

/-! ## Claim C1 -/

/-- C1: `update_block(block, current, new)` leaves the block unchanged when a
pending value equal (per the block's predicate) to `new` is queued; otherwise,
when `new` equals the currently applied value, it clears the pending flag and
stores nothing; otherwise it stores `new` as the pending value, overwriting
any previously pending one. -/
theorem C1_update_block_contract {α : Type} (b : UpdateBlock α) (cur new_ : α) :
    (b.has_value = true → b.equal b.value new_ = true →
      UpdateData.update_block b cur new_ = b) ∧
    ((b.has_value = true → b.equal b.value new_ = false) →
      b.equal cur new_ = true →
      UpdateData.update_block b cur new_ = { b with has_value := false }) ∧
    ((b.has_value = true → b.equal b.value new_ = false) →
      b.equal cur new_ = false →
      UpdateData.update_block b cur new_ =
        { b with has_value := true, value := new_ }) := by
  refine ⟨?_, ?_, ?_⟩
  · intro hv he
    simp [UpdateData.update_block, hv, he]
  · intro hskip hcur
    cases hv : b.has_value with
    | false =>
        simp only [UpdateData.update_block, hv, hcur, Bool.false_and, if_neg,
          Bool.false_eq_true, not_false_iff, if_true, if_false]
        cases b
        simp_all
    | true =>
        simp [UpdateData.update_block, hv, hskip hv, hcur, UpdateBlock.del_value]
  · intro hskip hcur
    cases hv : b.has_value with
    | false =>
        simp [UpdateData.update_block, hv, hcur, UpdateBlock.set_value]
    | true =>
        simp [UpdateData.update_block, hv, hskip hv, hcur, UpdateBlock.set_value]

/-- Witness for C1 at a concrete block: a pending `3` with a queued update to
`7` against an applied value `5` stores `7`. -/
theorem C1_update_block_contract_check :
    UpdateData.update_block
        (⟨3, true, fun a b => decide (a = b)⟩ : UpdateBlock ℕ) 5 7 =
      ⟨7, true, fun a b => decide (a = b)⟩ := by
  have h := (C1_update_block_contract
      (⟨3, true, fun a b => decide (a = b)⟩ : UpdateBlock ℕ) 5 7).2.2
  exact h (fun _ => by decide) (by decide)

/-! ## Render settings and the `_render_proc` iteration-limit computation -/

/-- Value of `rs.rendering_limits.type` (a Blender enum with the two values
compared against in `_render_proc`). -/
inductive LimitType
  | TIME
  | ITER
deriving DecidableEq

/-- Snapshot of `rs.rendering_limits`.  The time limit (a float of seconds in
the source) is modelled as a rational. -/
structure RenderingLimits where
  enable : Bool
  type : LimitType
  iterations : ℕ
  time : ℚ
deriving DecidableEq

/-- The user-settings fields read by `_render_proc`:
`settings.samples`, `settings.device_type == 'gpu'`,
`settings.device_type_plus_cpu`, and
`helpers.get_used_gpu_count(settings.gpu_states)`. -/
structure UserSettings where
  samples : ℕ
  device_type_gpu : Bool
  device_type_plus_cpu : Bool
  numGPUs : ℕ
deriving DecidableEq

/-- The `samples` value computed in the `'ITER'` branch of `_render_proc`:
100 when production render with `device_type == 'gpu'` and
`device_type_plus_cpu`; else the GPU count when it exceeds the user sample
count in production; else the user sample count. -/
def effective_samples (is_production : Bool) (st : UserSettings) : ℕ :=
  if is_production && st.device_type_gpu && st.device_type_plus_cpu then 100
  else if decide (st.samples < st.numGPUs) && is_production then st.numGPUs
  else st.samples

/-- The assignment
`self.used_iterations = int(rs.rendering_limits.iterations * user_set_samples / samples)`
followed by the clamp `if self.used_iterations < 1: self.used_iterations = 1`.
The source divides floats and truncates with `int`; on the natural inputs
involved this is floor division. -/
def used_iterations_calc (iterations user samples : ℕ) : ℕ :=
  let u := iterations * user / samples
  if u < 1 then 1 else u

/-- Value of `self.used_iterations` as left by the prologue of `_render_proc`: it is
recomputed only when limits are enabled with type `'ITER'`; otherwise the
previous field value (initially 1) is kept. -/
def render_proc_used_iterations (rl : RenderingLimits) (is_production : Bool)
    (st : UserSettings) (prev : ℕ) : ℕ :=
  if rl.enable && decide (rl.type = LimitType.ITER) then
    used_iterations_calc rl.iterations st.samples (effective_samples is_production st)
  else prev

/-! ## The `for i in itertools.count()` render loop

Each pass of the loop first evaluates the break condition for the current
index `i`; if it does not hold, the pass issues one render call and then
`yield`s once.  So the generator yields exactly `n` values iff the condition
is false at indices `0..n-1` and true at `n`, and it is infinite iff the
condition never holds.  `elapsed i` stands for
`time.perf_counter() - time_start` as read at the check of pass `i`. -/

/-- Break condition at the top of loop pass `i` in `_render_proc`. -/
def loopBreak (rl : RenderingLimits) (used_iterations : ℕ) (elapsed : ℕ → ℚ)
    (i : ℕ) : Bool :=
  if rl.enable then
    match rl.type with
    | LimitType.TIME => decide (rl.time ≠ 0) && decide (rl.time ≤ elapsed i)
    | LimitType.ITER => decide (used_iterations ≠ 0) && decide (used_iterations ≤ i)
  else false

/-- The generator produces at least `n` yields. -/
def yieldsAtLeast (rl : RenderingLimits) (used_iterations : ℕ) (elapsed : ℕ → ℚ)
    (n : ℕ) : Prop :=
  ∀ i, i < n → loopBreak rl used_iterations elapsed i = false

/-- The generator produces exactly `n` yields and then stops. -/
def yieldsExactly (rl : RenderingLimits) (used_iterations : ℕ) (elapsed : ℕ → ℚ)
    (n : ℕ) : Prop :=
  yieldsAtLeast rl used_iterations elapsed n ∧
    loopBreak rl used_iterations elapsed n = true

/-- The generated sequence is infinite. -/
def yieldsForever (rl : RenderingLimits) (used_iterations : ℕ)
    (elapsed : ℕ → ℚ) : Prop :=
  ∀ i, loopBreak rl used_iterations elapsed i = false

instance (rl : RenderingLimits) (u : ℕ) (e : ℕ → ℚ) (n : ℕ) :
    Decidable (yieldsExactly rl u e n) := by
  unfold yieldsExactly yieldsAtLeast
  infer_instance

/-! ## Claim C4 -/

/-- Clamping to a minimum of 1 agrees with `max 1`. -/
theorem used_iterations_calc_eq_max (a b c : ℕ) :
    used_iterations_calc a b c = max 1 (a * b / c) := by
  show (if a * b / c < 1 then 1 else a * b / c) = max 1 (a * b / c)
  split <;> omega

/-- The computed iteration count is at least 1. -/
theorem used_iterations_calc_pos (a b c : ℕ) : 1 ≤ used_iterations_calc a b c := by
  show 1 ≤ (if a * b / c < 1 then 1 else a * b / c)
  split <;> omega

/-- With limits enabled and type `'ITER'`, the prologue recomputes
`used_iterations` from the formula. -/
theorem render_proc_used_iterations_iter (rl : RenderingLimits)
    (is_production : Bool) (st : UserSettings) (prev : ℕ)
    (hen : rl.enable = true) (hty : rl.type = LimitType.ITER) :
    render_proc_used_iterations rl is_production st prev =
      used_iterations_calc rl.iterations st.samples
        (effective_samples is_production st) := by
  simp [render_proc_used_iterations, hen, hty]

/-- The effective-sample-count rule as the spec words it, for comparison with
the source's `effective_samples`: 100 if in production mode with mixed
CPU+GPU device type; else the GPU count if the GPU count exceeds the
user-set sample count in production mode; else the user-set sample count. -/
def spec_effective_samples (is_production mixed_cpu_gpu : Bool)
    (numGPUs user : ℕ) : ℕ :=
  if is_production && mixed_cpu_gpu then 100
  else if is_production && decide (user < numGPUs) then numGPUs
  else user

/-- The iteration-count rule as the spec words it:
`used_iterations = floor(limit_iterations * user_samples / effective_samples)`
clamped to a minimum of 1. -/
def spec_used_iterations (limit_iterations user effective : ℕ) : ℕ :=
  max 1 (limit_iterations * user / effective)

/-- C4: with limits enabled and type `'ITER'`, `_render_proc` computes the
effective sample count exactly as the spec describes it (100 for production
mixed CPU+GPU; the GPU count when it exceeds the user sample count in
production; else the user sample count), and sets
`used_iterations = floor(limit_iterations * user_samples / effective_samples)`
clamped to a minimum of 1. -/
theorem C4_used_iterations_formula (rl : RenderingLimits) (is_production : Bool)
    (st : UserSettings) (prev : ℕ)
    (hen : rl.enable = true) (hty : rl.type = LimitType.ITER) :
    effective_samples is_production st =
      spec_effective_samples is_production
        (st.device_type_gpu && st.device_type_plus_cpu) st.numGPUs st.samples ∧
    render_proc_used_iterations rl is_production st prev =
      spec_used_iterations rl.iterations st.samples
        (effective_samples is_production st) := by
  constructor
  · simp only [effective_samples, spec_effective_samples, Bool.and_assoc]
    rcases is_production with _ | _ <;> simp
  · rw [render_proc_used_iterations_iter rl is_production st prev hen hty,
      used_iterations_calc_eq_max]
    rfl

/-- Witness for C4 with limits enabled, type ITER, in production mode with
mixed CPU+GPU devices. -/
theorem C4_used_iterations_formula_check :
    effective_samples true
        ({ samples := 50, device_type_gpu := true, device_type_plus_cpu := true,
           numGPUs := 1 } : UserSettings) =
      spec_effective_samples true (true && true) 1 50 ∧
    render_proc_used_iterations
        ({ enable := true, type := LimitType.ITER, iterations := 5, time := 0 } :
          RenderingLimits) true
        ({ samples := 50, device_type_gpu := true, device_type_plus_cpu := true,
           numGPUs := 1 } : UserSettings) 1 =
      spec_used_iterations 5 50
        (effective_samples true
          ({ samples := 50, device_type_gpu := true, device_type_plus_cpu := true,
             numGPUs := 1 } : UserSettings)) :=
  C4_used_iterations_formula _ true _ 1 rfl rfl

/-! ## Claim C3 -/

/-- C3 (amended): with limits enabled and type `'ITER'`, `render_proc` yields
exactly `used_iterations` times and then stops, where `used_iterations` is
the clamped scaled count computed in the prologue; when the effective sample
count equals the user sample count (in particular outside production mode
with at least one user sample) that count is `max 1 N` for a configured
iteration limit `N`, hence exactly `N` yields for every `N ≥ 1`. -/
theorem C3_iter_limit_yields (rl : RenderingLimits) (is_production : Bool)
    (st : UserSettings) (elapsed : ℕ → ℚ) (prev : ℕ)
    (hen : rl.enable = true) (hty : rl.type = LimitType.ITER) :
    yieldsExactly rl (render_proc_used_iterations rl is_production st prev)
      elapsed (render_proc_used_iterations rl is_production st prev) ∧
    (is_production = false → 1 ≤ st.samples →
      render_proc_used_iterations rl is_production st prev = max 1 rl.iterations) := by
  have hpos : 1 ≤ render_proc_used_iterations rl is_production st prev := by
    rw [render_proc_used_iterations_iter rl is_production st prev hen hty]
    exact used_iterations_calc_pos _ _ _
  constructor
  · constructor
    · intro i hi
      simp [loopBreak, hen, hty, Nat.not_le.mpr hi]
    · simp only [loopBreak, hen, if_true, hty]
      simp
      omega
  · intro hprod hs
    subst hprod
    have heff : effective_samples false st = st.samples := by
      simp [effective_samples]
    rw [render_proc_used_iterations_iter rl false st prev hen hty,
      used_iterations_calc_eq_max, heff, Nat.mul_div_cancel _ (by omega)]

/-- Witness for C3 (amended) at a viewport configuration with iteration limit
5: exactly 5 yields. -/
theorem C3_iter_limit_yields_check :
    yieldsExactly
        ({ enable := true, type := LimitType.ITER, iterations := 5, time := 0 } :
          RenderingLimits)
        (render_proc_used_iterations
          ({ enable := true, type := LimitType.ITER, iterations := 5, time := 0 } :
            RenderingLimits) false
          ({ samples := 1, device_type_gpu := false, device_type_plus_cpu := false,
             numGPUs := 1 } : UserSettings) 1)
        (fun _ => 0)
        (render_proc_used_iterations
          ({ enable := true, type := LimitType.ITER, iterations := 5, time := 0 } :
            RenderingLimits) false
          ({ samples := 1, device_type_gpu := false, device_type_plus_cpu := false,
             numGPUs := 1 } : UserSettings) 1) ∧
    (false = false → 1 ≤
        ({ samples := 1, device_type_gpu := false, device_type_plus_cpu := false,
           numGPUs := 1 } : UserSettings).samples →
      render_proc_used_iterations
          ({ enable := true, type := LimitType.ITER, iterations := 5, time := 0 } :
            RenderingLimits) false
          ({ samples := 1, device_type_gpu := false, device_type_plus_cpu := false,
             numGPUs := 1 } : UserSettings) 1 =
        max 1 ({ enable := true, type := LimitType.ITER, iterations := 5,
                 time := 0 } : RenderingLimits).iterations) :=
  C3_iter_limit_yields _ false _ (fun _ => 0) 1 rfl rfl

/-- Counterexample for C3 as stated: rendering limits enabled with type
`'ITER'` and a configured iteration limit of 5, but in a production render
with mixed CPU+GPU devices and 50 user samples the effective sample count is
100, so the generator yields exactly 2 times, not 5. -/
theorem C3_counterexample :
    yieldsExactly
        ({ enable := true, type := LimitType.ITER, iterations := 5, time := 0 } :
          RenderingLimits)
        (render_proc_used_iterations
          ({ enable := true, type := LimitType.ITER, iterations := 5, time := 0 } :
            RenderingLimits) true
          ({ samples := 50, device_type_gpu := true, device_type_plus_cpu := true,
             numGPUs := 1 } : UserSettings) 1)
        (fun _ => 0) 2 ∧
    ¬ yieldsExactly
        ({ enable := true, type := LimitType.ITER, iterations := 5, time := 0 } :
          RenderingLimits)
        (render_proc_used_iterations
          ({ enable := true, type := LimitType.ITER, iterations := 5, time := 0 } :
            RenderingLimits) true
          ({ samples := 50, device_type_gpu := true, device_type_plus_cpu := true,
             numGPUs := 1 } : UserSettings) 1)
        (fun _ => 0) 5 := by
  constructor
  · decide
  · decide

/-! ## Claim C5 -/

/-- C5 (amended): with limits enabled, type `'TIME'` and a nonzero limit `T`,
the generator yields once per loop pass whose check still sees elapsed time
below `T` — in particular it yields at least once provided the first check
happens before `T` has elapsed — and it stops at the first check at which
elapsed time reaches `T` (so it yields exactly `n` times when checks
`0..n-1` see elapsed `< T` and check `n` sees elapsed `≥ T`); with limits
disabled the generated sequence is infinite. -/
theorem C5_time_limit_behaviour (rl : RenderingLimits) (used : ℕ)
    (elapsed : ℕ → ℚ)
    (hen : rl.enable = true) (hty : rl.type = LimitType.TIME)
    (hT : rl.time ≠ 0) :
    (elapsed 0 < rl.time → yieldsAtLeast rl used elapsed 1) ∧
    (∀ n, rl.time ≤ elapsed n →
      ∀ k, yieldsAtLeast rl used elapsed k → k ≤ n) ∧
    (∀ n, (∀ i, i < n → elapsed i < rl.time) → rl.time ≤ elapsed n →
      yieldsExactly rl used elapsed n) ∧
    (∀ rl' : RenderingLimits, rl'.enable = false →
      yieldsForever rl' used elapsed) := by
  have hbreak : ∀ i, loopBreak rl used elapsed i =
      (decide (rl.time ≠ 0) && decide (rl.time ≤ elapsed i)) := by
    intro i
    simp [loopBreak, hen, hty]
  refine ⟨?_, ?_, ?_, ?_⟩
  · intro h0 i hi
    have : i = 0 := by omega
    subst this
    rw [hbreak]
    simp [not_le.mpr h0]
  · intro n hn k hk
    by_contra hlt
    have hfalse := hk n (by omega)
    rw [hbreak] at hfalse
    simp [hT, hn] at hfalse
  · intro n hlow hhi
    constructor
    · intro i hi
      rw [hbreak]
      simp [not_le.mpr (hlow i hi)]
    · rw [hbreak]
      simp [hT, hhi]
  · intro rl' hdis i
    simp [loopBreak, hdis]

/-- Witness for C5 (amended): limit 3 seconds, elapsed time `i` at check `i`:
the first check is below the limit, and the generator yields exactly 3 times. -/
theorem C5_time_limit_behaviour_check :
    yieldsAtLeast
        ({ enable := true, type := LimitType.TIME, iterations := 0, time := 3 } :
          RenderingLimits) 1 (fun i => (i : ℚ)) 1 ∧
    yieldsExactly
        ({ enable := true, type := LimitType.TIME, iterations := 0, time := 3 } :
          RenderingLimits) 1 (fun i => (i : ℚ)) 3 := by
  have h := C5_time_limit_behaviour
      ({ enable := true, type := LimitType.TIME, iterations := 0, time := 3 } :
        RenderingLimits) 1 (fun i => (i : ℚ)) rfl rfl (by norm_num)
  refine ⟨h.1 (by norm_num), h.2.2.1 3 ?_ (by norm_num)⟩
  intro i hi
  have : (i : ℚ) < 3 := by exact_mod_cast hi
  simpa using this

/-- Counterexample for C5 as stated: limits enabled, type `'TIME'`, nonzero
limit of 5 seconds, but the settings-apply prologue already took 10 seconds,
so the first loop check sees elapsed ≥ 5 and the generator yields zero
times — it does not yield at least once. -/
theorem C5_counterexample :
    (({ enable := true, type := LimitType.TIME, iterations := 0, time := 5 } :
        RenderingLimits).time ≠ 0) ∧
    yieldsExactly
        ({ enable := true, type := LimitType.TIME, iterations := 0, time := 5 } :
          RenderingLimits) 1 (fun _ => 10) 0 ∧
    ¬ yieldsAtLeast
        ({ enable := true, type := LimitType.TIME, iterations := 0, time := 5 } :
          RenderingLimits) 1 (fun _ => 10) 1 := by
  refine ⟨by norm_num, ⟨fun i hi => absurd hi (by omega), by decide⟩, ?_⟩
  intro h
  have := h 0 (by omega)
  simp [loopBreak] at this
  exact absurd this (by norm_num)

/-! ## SceneRenderer — state and render-target ownership

Render target sets are identified by the order of their creation
(`next_target_id` is the freshness source for `RenderTargets(...)`);
`render_layers` holds `some` of the AOV settings captured at creation when a
`RenderLayers` object exists, `none` for Python `None`. -/

/-- The `SceneRenderer` fields the scheduler claims touch. -/
structure SceneRenderer where
  resolution : Option Resolution
  region : Option Region
  aov_settings : Option AovSettings
  render_targets : Option ℕ
  render_layers : Option (Option AovSettings)
  next_target_id : ℕ
  im_prepared : List (String × ℕ)
  im_tile : Option (ℚ × ℚ)
  im_iteration : Option ℕ
  tile_image : Option (ℚ × ℚ)
  cache_generated : Bool
  iteration_in_progress : Option ℕ

/-- Python `SceneRenderer.__init__` together with the class attributes
`render_targets = None`, `render_layers = None`. -/
def SceneRenderer.init : SceneRenderer :=
  { resolution := none, region := none, aov_settings := none,
    render_targets := none, render_layers := none, next_target_id := 0,
    im_prepared := [], im_tile := none, im_iteration := none,
    tile_image := none, cache_generated := false,
    iteration_in_progress := none }

/-- Calls issued to the render device by `update_render_resolution`. -/
inductive DevEvent
  | detach_render_target (t : ℕ)
  | create_render_targets (t : ℕ)
  | attach_render_target (t : ℕ)
deriving DecidableEq

/-- Python `SceneRenderer.update_render_resolution`: drop the layers object;
if a render target set exists, detach and delete it; store the new
resolution; create a fresh target set and a fresh layers object; attach the
new target set. -/
def SceneRenderer.update_render_resolution (s : SceneRenderer)
    (render_resolution : Option Resolution) : SceneRenderer × List DevEvent :=
  let s0 := { s with render_layers := none }
  let step1 : SceneRenderer × List DevEvent :=
    match s0.render_targets with
    | some t => ({ s0 with render_targets := none },
                 [DevEvent.detach_render_target t])
    | none => (s0, [])
  let s1 := step1.1
  let newT := s1.next_target_id
  let s2 := { s1 with
      resolution := render_resolution,
      render_targets := some newT,
      next_target_id := newT + 1,
      render_layers := some s1.aov_settings }
  (s2, step1.2 ++ [DevEvent.create_render_targets newT,
                   DevEvent.attach_render_target newT])

/-- Python `SceneRenderer.update_render_region`. -/
def SceneRenderer.update_render_region (s : SceneRenderer)
    (render_region : Option Region) : SceneRenderer :=
  { s with region := render_region }

/-- Python `SceneRenderer.update_aov`. -/
def SceneRenderer.update_aov (s : SceneRenderer) (aov : Option AovSettings) :
    SceneRenderer :=
  { s with aov_settings := aov }

/-- Effect of one device call on the set of attached render target sets. -/
def applyDevEvent (att : List ℕ) : DevEvent → List ℕ
  | DevEvent.detach_render_target t => att.erase t
  | DevEvent.create_render_targets _ => att
  | DevEvent.attach_render_target t => att ++ [t]

/-- Attached render target sets after a sequence of device calls. -/
def attachedAfter (att : List ℕ) (evs : List DevEvent) : List ℕ :=
  evs.foldl applyDevEvent att

/-! ## Claim C9 -/

/-- C9: when a render target set is already attached,
`update_render_resolution` detaches it before creating and attaching the new
one — the device call sequence is detach-old, create-new, attach-new — so
after every prefix of those calls at most one target set is attached, and the
renderer ends up owning the fresh set. -/
theorem C9_detach_before_attach (s : SceneRenderer) (r : Option Resolution)
    (t : ℕ) (h : s.render_targets = some t) :
    (s.update_render_resolution r).2 =
      [DevEvent.detach_render_target t,
       DevEvent.create_render_targets s.next_target_id,
       DevEvent.attach_render_target s.next_target_id] ∧
    (∀ k, (attachedAfter [t] ((s.update_render_resolution r).2.take k)).length ≤ 1) ∧
    (s.update_render_resolution r).1.render_targets = some s.next_target_id := by
  have hev : (s.update_render_resolution r).2 =
      [DevEvent.detach_render_target t,
       DevEvent.create_render_targets s.next_target_id,
       DevEvent.attach_render_target s.next_target_id] := by
    simp [SceneRenderer.update_render_resolution, h]
  refine ⟨hev, ?_, ?_⟩
  · intro k
    rw [hev]
    rcases k with _ | _ | _ | k <;>
      simp [attachedAfter, applyDevEvent, List.take_succ_cons,
        List.take_of_length_le]
  · simp [SceneRenderer.update_render_resolution, h]

/-- Witness for C9: a renderer owning target set 0 swaps to target set 1. -/
theorem C9_detach_before_attach_check :
    (SceneRenderer.update_render_resolution
        { SceneRenderer.init with render_targets := some 0, next_target_id := 1 }
        (some (640, 480))).2 =
      [DevEvent.detach_render_target 0,
       DevEvent.create_render_targets 1,
       DevEvent.attach_render_target 1] ∧
    (∀ k, (attachedAfter [0]
        ((SceneRenderer.update_render_resolution
          { SceneRenderer.init with render_targets := some 0, next_target_id := 1 }
          (some (640, 480))).2.take k)).length ≤ 1) ∧
    (SceneRenderer.update_render_resolution
        { SceneRenderer.init with render_targets := some 0, next_target_id := 1 }
        (some (640, 480))).1.render_targets = some 1 :=
  C9_detach_before_attach _ (some (640, 480)) 0 rfl

/-! ## get_image and the per-iteration image cache -/

/-- External collaborators read by `get_image` during one iteration: the
frame buffer per AOV channel held by the render target set
(`get_frame_buffer`), the resolve step (`get_resolved_image`), and the
layer post-processing (`render_layers.prepare_image_by_layer`).  Image
objects are identified by numbers. -/
structure FrameData where
  frame_buffer : String → Option ℕ
  resolved_image : ℕ → Option ℕ
  prepare_image_by_layer : String → ℕ → ℕ

/-- Python `SceneRenderer.get_image(aov_name)`.  The returned triple is the
new renderer state, the returned image, and whether the call went past the
cache check into the resolve path.

* a cached entry is returned as-is;
* a missing/falsy frame buffer yields `None`;
* a `None` resolve result leaves the cache unchanged and yields
  `im_prepared.get(aov_name) = None`;
* otherwise the resolved image is post-processed, cached, and returned. -/
def SceneRenderer.get_image (env : FrameData) (s : SceneRenderer)
    (aov_name : String) : SceneRenderer × Option ℕ × Bool :=
  match s.im_prepared.lookup aov_name with
  | some im => (s, some im, false)
  | none =>
    match env.frame_buffer aov_name with
    | none => (s, none, false)
    | some fb =>
      match env.resolved_image fb with
      | none => (s, none, true)
      | some im =>
        let p := env.prepare_image_by_layer aov_name im
        ({ s with im_prepared := (aov_name, p) :: s.im_prepared }, some p, true)

/-- The statements executed by one pass of the `_render_proc` loop right
after the render call and before the `yield`: mark the cache generated,
latch the tile and iteration number, and clear `im_prepared`. -/
def SceneRenderer.render_iteration_step (s : SceneRenderer) (i : ℕ) :
    SceneRenderer :=
  { s with cache_generated := true, im_tile := s.tile_image,
           im_iteration := some i, im_prepared := [] }

/-! ## Claim C8 -/

/-- C8: between two advances of the refine generator, a repeated
`get_image(aov)` call returns the same cached `im_prepared` entry without
touching the resolve path; after the generator advances one more iteration
the cache is cleared, so the next `get_image` call re-resolves and returns
the image newly built from the current buffers; and `get_image` returns
nothing when the requested channel has no frame-buffer data yet. -/
theorem C8_get_image_cache (env env2 : FrameData) (s : SceneRenderer)
    (aov_name : String) :
    (∀ im, (s.get_image env aov_name).2.1 = some im →
      SceneRenderer.get_image env (s.get_image env aov_name).1 aov_name =
        ((s.get_image env aov_name).1, some im, false)) ∧
    (∀ i fb im, env2.frame_buffer aov_name = some fb →
      env2.resolved_image fb = some im →
      SceneRenderer.get_image env2 (s.render_iteration_step i) aov_name =
        ({ s.render_iteration_step i with
            im_prepared := [(aov_name, env2.prepare_image_by_layer aov_name im)] },
         some (env2.prepare_image_by_layer aov_name im), true)) ∧
    (s.im_prepared.lookup aov_name = none →
      env.frame_buffer aov_name = none →
      s.get_image env aov_name = (s, none, false)) := by
  refine ⟨?_, ?_, ?_⟩
  · intro im him
    rcases hl : s.im_prepared.lookup aov_name with _ | im0
    · rcases hfb : env.frame_buffer aov_name with _ | fb
      · simp [SceneRenderer.get_image, hl, hfb] at him
      · rcases hres : env.resolved_image fb with _ | im1
        · simp [SceneRenderer.get_image, hl, hfb, hres] at him
        · simp only [SceneRenderer.get_image, hl, hfb, hres] at him ⊢
          simp at him
          simp [List.lookup, him]
    · simp only [SceneRenderer.get_image, hl] at him ⊢
      simp at him
      simp [him, hl]
  · intro i fb im hfb hres
    simp [SceneRenderer.get_image, SceneRenderer.render_iteration_step,
      List.lookup, hfb, hres]
  · intro hl hfb
    simp [SceneRenderer.get_image, hl, hfb]

/-- Witness for C8 at a concrete environment: channel `a` resolves to
image 7 prepared as 8; the first call after an iteration step builds and
caches it. -/
theorem C8_get_image_cache_check :
    SceneRenderer.get_image
        ({ frame_buffer := fun n => if n = "a" then some 3 else none,
           resolved_image := fun fb => if fb = 3 then some 7 else none,
           prepare_image_by_layer := fun _ im => im + 1 } : FrameData)
        (SceneRenderer.render_iteration_step SceneRenderer.init 0) "a" =
      ({ SceneRenderer.render_iteration_step SceneRenderer.init 0 with
          im_prepared := [("a", 8)] }, some 8, true) := by
  have h := (C8_get_image_cache
      ({ frame_buffer := fun n => if n = "a" then some 3 else none,
         resolved_image := fun fb => if fb = 3 then some 7 else none,
         prepare_image_by_layer := fun _ im => im + 1 } : FrameData)
      ({ frame_buffer := fun n => if n = "a" then some 3 else none,
         resolved_image := fun fb => if fb = 3 then some 7 else none,
         prepare_image_by_layer := fun _ im => im + 1 } : FrameData)
      SceneRenderer.init "a").2.1 0 3 7 (by simp) (by simp)
  simpa using h

/-! ## RenderThread and the threaded coordinator -/

/-- The observable state of the background `RenderThread`: whether it is
still running (`threading.Thread.is_alive`) and its `terminate_event`. -/
structure RenderThreadHandle where
  alive : Bool
  terminate_event : Bool
deriving DecidableEq

/-- Python `RenderThread.terminate`: set the terminate event. -/
def RenderThreadHandle.terminate (t : RenderThreadHandle) : RenderThreadHandle :=
  { t with terminate_event := true }

/-- The `RenderThread.run` loop `while not self.terminate_event.wait(...)`:
whether the next top-of-loop check makes the loop exit (a thread that has
already died trivially does not keep looping), so that a subsequent `join`
returns. -/
def RenderThreadHandle.run_loop_exits (t : RenderThreadHandle) : Bool :=
  t.terminate_event || !t.alive

/-- The `SceneRendererThreaded` fields the claims touch.  The locks serialize
access in the source and are not part of the sequential state;
`scene_synced_camera_zoom` stands for `self.scene_synced.camera_zoom`. -/
structure SceneRendererThreaded where
  scene_renderer : SceneRenderer
  need_scene_redraw : Bool
  thread : Option RenderThreadHandle
  render_completed_event : Bool
  update_data : UpdateData
  render_resolution : Option Resolution
  aov : Option AovSettings
  render_region : Option Region
  render_camera : Option Camera
  scene_synced_camera_zoom : Option ℚ
  stop_requested : Bool

/-- Python `SceneRendererThreaded.__init__` (with `stop_requested` at its
pre-`_start` default). -/
def SceneRendererThreaded.init (sr : SceneRenderer) : SceneRendererThreaded :=
  { scene_renderer := sr, need_scene_redraw := false, thread := none,
    render_completed_event := false, update_data := UpdateData.init,
    render_resolution := none, aov := none, render_region := none,
    render_camera := none, scene_synced_camera_zoom := none,
    stop_requested := false }

/-- The `need_scene_redraw` property setter `_set_need_scene_redraw`: clear
the completion event, then store the flag. -/
def SceneRendererThreaded.set_need_scene_redraw (s : SceneRendererThreaded)
    (v : Bool) : SceneRendererThreaded :=
  { s with render_completed_event := false, need_scene_redraw := v }

/-- Python `SceneRendererThreaded._set_render_camera`: record the camera,
hand it to the scene-sync object, and set the renderer's tile zoom from the
synced camera zoom (or `(1, 1)`). -/
def SceneRendererThreaded.set_render_camera (s : SceneRendererThreaded)
    (camera : Option Camera) : SceneRendererThreaded :=
  let s1 := { s with render_camera := camera }
  match s1.scene_synced_camera_zoom with
  | some z =>
      { s1 with scene_renderer :=
          { s1.scene_renderer with tile_image := some (z, z) } }
  | none =>
      { s1 with scene_renderer :=
          { s1.scene_renderer with tile_image := some (1, 1) } }

/-- Python `SceneRendererThreaded.is_alive`: `self.thread.is_alive()`.
A `none` result models the `AttributeError` raised when the thread handle
has been cleared (`self.thread = None`). -/
def SceneRendererThreaded.is_alive (s : SceneRendererThreaded) : Option Bool :=
  s.thread.map RenderThreadHandle.alive

/-- Python `SceneRendererThreaded.is_render_completed`: completed when the
worker is no longer alive ("in case render crashed"), else the completion
event. -/
def SceneRendererThreaded.is_render_completed (s : SceneRendererThreaded) :
    Option Bool :=
  match s.is_alive with
  | none => none
  | some a => if !a then some true else some s.render_completed_event

/-- Python `SceneRendererThreaded.stop`: request stop; if a thread handle
exists, terminate it, join it, and drop the handle. -/
def SceneRendererThreaded.stop (s : SceneRendererThreaded) :
    SceneRendererThreaded :=
  let s1 := { s with stop_requested := true }
  match s1.thread with
  | some _ => { s1 with thread := none }
  | none => s1

/-- The applications of pending changes performed by `check_updates`,
recorded in execution order. -/
inductive UpdEvent
  | setAovSettings (a : Option AovSettings)
  | applyResolution (r : Option Resolution)
  | renderLayersUpdate (a : Option AovSettings)
  | applyRegion (r : Option Region)
  | setCamera (c : Option Camera)
  | setNeedRedraw
deriving DecidableEq

/-- Python `SceneRendererThreaded.check_updates` (body under
`update_data_lock`):

* if a resolution is pending, pop it, fold in a pending AOV change
  (assigning `scene_renderer.aov_settings` without the incremental
  `render_layers.update` path), apply the resolution under `image_lock`,
  and set `need_scene_redraw`;
* else if an AOV change is pending, pop it, assign
  `scene_renderer.aov_settings`, run the incremental
  `render_layers.update(aov)`, and set `need_scene_redraw`;
* if a region is pending, pop and apply it and set `need_scene_redraw`;
* if a camera is pending, pop it into `_set_render_camera` and set
  `need_scene_redraw`. -/
def SceneRendererThreaded.check_updates (s : SceneRendererThreaded) :
    SceneRendererThreaded × List UpdEvent :=
  let g1 : SceneRendererThreaded × List UpdEvent :=
    if s.update_data.render_resolution.has_value then
      let pr := s.update_data.render_resolution.pop_value
      let sa := { s with
        update_data := { s.update_data with render_resolution := pr.1 },
        render_resolution := pr.2 }
      let g2 : SceneRendererThreaded × List UpdEvent :=
        if sa.update_data.aov.has_value then
          let pa := sa.update_data.aov.pop_value
          ({ sa with
              update_data := { sa.update_data with aov := pa.1 },
              aov := pa.2,
              scene_renderer := { sa.scene_renderer with aov_settings := pa.2 } },
           [UpdEvent.setAovSettings pa.2])
        else (sa, [])
      let upd := g2.1.scene_renderer.update_render_resolution pr.2
      (SceneRendererThreaded.set_need_scene_redraw
         { g2.1 with scene_renderer := upd.1 } true,
       g2.2 ++ [UpdEvent.applyResolution pr.2, UpdEvent.setNeedRedraw])
    else if s.update_data.aov.has_value then
      let pa := s.update_data.aov.pop_value
      let sr2 := { s.scene_renderer with
        aov_settings := pa.2,
        render_layers := some pa.2 }
      let sa := { s with
        update_data := { s.update_data with aov := pa.1 },
        aov := pa.2,
        scene_renderer := sr2 }
      (SceneRendererThreaded.set_need_scene_redraw sa true,
       [UpdEvent.setAovSettings pa.2, UpdEvent.renderLayersUpdate pa.2,
        UpdEvent.setNeedRedraw])
    else (s, [])
  let g3 : SceneRendererThreaded × List UpdEvent :=
    if g1.1.update_data.render_region.has_value then
      let pg := g1.1.update_data.render_region.pop_value
      let sg := { g1.1 with
        update_data := { g1.1.update_data with render_region := pg.1 },
        render_region := pg.2,
        scene_renderer := g1.1.scene_renderer.update_render_region pg.2 }
      (SceneRendererThreaded.set_need_scene_redraw sg true,
       [UpdEvent.applyRegion pg.2, UpdEvent.setNeedRedraw])
    else (g1.1, [])
  let g4 : SceneRendererThreaded × List UpdEvent :=
    if g3.1.update_data.render_camera.has_value then
      let pc := g3.1.update_data.render_camera.pop_value
      let sc := SceneRendererThreaded.set_render_camera
        { g3.1 with update_data :=
            { g3.1.update_data with render_camera := pc.1 } } pc.2
      (SceneRendererThreaded.set_need_scene_redraw sc true,
       [UpdEvent.setCamera pc.2, UpdEvent.setNeedRedraw])
    else (g3.1, [])
  (g4.1, g1.2 ++ g3.2 ++ g4.2)

/-- Python `SceneRendererThreaded.update_render_resolution`: enqueue only,
against the coordinator's currently applied `self.render_resolution`. -/
def SceneRendererThreaded.update_render_resolution (s : SceneRendererThreaded)
    (render_resolution : Option Resolution) : SceneRendererThreaded :=
  let b := UpdateData.update_block s.update_data.render_resolution
    s.render_resolution render_resolution
  { s with update_data := { s.update_data with render_resolution := b } }

/-- Python `SceneRendererThreaded.update_render_region`: enqueue only. -/
def SceneRendererThreaded.update_render_region (s : SceneRendererThreaded)
    (render_region : Option Region) : SceneRendererThreaded :=
  let b := UpdateData.update_block s.update_data.render_region
    s.render_region render_region
  { s with update_data := { s.update_data with render_region := b } }

/-- Python `SceneRendererThreaded.update_aov`: enqueue only. -/
def SceneRendererThreaded.update_aov (s : SceneRendererThreaded)
    (aov : Option AovSettings) : SceneRendererThreaded :=
  let b := UpdateData.update_block s.update_data.aov s.aov aov
  { s with update_data := { s.update_data with aov := b } }

/-- Python `SceneRendererThreaded.update_render_camera`: enqueue only. -/
def SceneRendererThreaded.update_render_camera (s : SceneRendererThreaded)
    (render_camera : Option Camera) : SceneRendererThreaded :=
  let b := UpdateData.update_block s.update_data.render_camera
    s.render_camera render_camera
  { s with update_data := { s.update_data with render_camera := b } }

/-! ## Claim C10 -/

/-- C10: a freshly constructed `UpdateData` has the region block already
pending (the `UpdateBlock` constructor's `has_value=True` default) with value
`None`, while the resolution, AOV and camera blocks start with nothing
pending; consequently the first `check_updates` after construction pops the
region block, applies a region of `None` to the `SceneRenderer`, and sets
`need_scene_redraw`. -/
theorem C10_initial_region_pending (sr : SceneRenderer) :
    UpdateData.init.render_region.has_value = true ∧
    UpdateData.init.render_region.value = none ∧
    UpdateData.init.render_resolution.has_value = false ∧
    UpdateData.init.aov.has_value = false ∧
    UpdateData.init.render_camera.has_value = false ∧
    ((SceneRendererThreaded.init sr).check_updates).2 =
      [UpdEvent.applyRegion none, UpdEvent.setNeedRedraw] ∧
    ((SceneRendererThreaded.init sr).check_updates).1.scene_renderer.region
      = none ∧
    ((SceneRendererThreaded.init sr).check_updates).1.need_scene_redraw
      = true ∧
    ((SceneRendererThreaded.init sr).check_updates).1.update_data.render_region.has_value
      = false := by
  refine ⟨rfl, rfl, rfl, rfl, rfl, ?_, ?_, ?_, ?_⟩ <;>
    simp [SceneRendererThreaded.check_updates, SceneRendererThreaded.init,
      UpdateData.init, UpdateBlock.pop_value, SceneRenderer.update_render_region,
      SceneRendererThreaded.set_need_scene_redraw]

/-! ## Claim C6 -/

/-- C6 (amended): when the background worker has exited (e.g. because an
error propagated out of a tick), `is_render_completed()` reports `true` while
the thread handle is live in the coordinator; `stop()` completes without
blocking — terminating makes the run loop's next check exit, and joining a
dead thread returns immediately — and it drops the thread handle; after
`stop()` a call to `is_render_completed()` hits the cleared handle
(`AttributeError`, modelled as `none`) rather than reporting `true`. -/
theorem C6_crashed_worker_completed (s : SceneRendererThreaded)
    (t : RenderThreadHandle) (h : s.thread = some t) (hdead : t.alive = false) :
    s.is_render_completed = some true ∧
    t.terminate.run_loop_exits = true ∧
    s.stop.thread = none ∧
    s.stop.stop_requested = true ∧
    s.stop.is_render_completed = none := by
  refine ⟨?_, ?_, ?_, ?_, ?_⟩
  · simp [SceneRendererThreaded.is_render_completed,
      SceneRendererThreaded.is_alive, h, hdead]
  · simp [RenderThreadHandle.run_loop_exits, RenderThreadHandle.terminate]
  · simp [SceneRendererThreaded.stop, h]
  · simp [SceneRendererThreaded.stop, h]
  · simp [SceneRendererThreaded.stop, h, SceneRendererThreaded.is_render_completed,
      SceneRendererThreaded.is_alive]

/-- Witness for C6 (amended) at a concrete coordinator whose worker died. -/
theorem C6_crashed_worker_completed_check :
    SceneRendererThreaded.is_render_completed
        { SceneRendererThreaded.init SceneRenderer.init with
            thread := some { alive := false, terminate_event := false } }
      = some true ∧
    RenderThreadHandle.run_loop_exits
        (RenderThreadHandle.terminate { alive := false, terminate_event := false })
      = true ∧
    (SceneRendererThreaded.stop
        { SceneRendererThreaded.init SceneRenderer.init with
            thread := some { alive := false, terminate_event := false } }).thread
      = none ∧
    (SceneRendererThreaded.stop
        { SceneRendererThreaded.init SceneRenderer.init with
            thread := some { alive := false, terminate_event := false } }).stop_requested
      = true ∧
    (SceneRendererThreaded.stop
        { SceneRendererThreaded.init SceneRenderer.init with
            thread := some { alive := false, terminate_event := false } }).is_render_completed
      = none :=
  C6_crashed_worker_completed _ { alive := false, terminate_event := false } rfl rfl

/-- Counterexample for C6 as stated: a coordinator whose worker already
exited reports completion before `stop()`, but after `stop()` has dropped
the thread handle `is_render_completed()` no longer returns `true` — it
fails on the cleared handle (`self.thread.is_alive()` with
`self.thread = None`). -/
theorem C6_counterexample :
    SceneRendererThreaded.is_render_completed
        { SceneRendererThreaded.init SceneRenderer.init with
            thread := some { alive := false, terminate_event := false } }
      = some true ∧
    (SceneRendererThreaded.stop
        { SceneRendererThreaded.init SceneRenderer.init with
            thread := some { alive := false, terminate_event := false } }).is_render_completed
      = none ∧
    ¬ ((SceneRendererThreaded.stop
        { SceneRendererThreaded.init SceneRenderer.init with
            thread := some { alive := false, terminate_event := false } }).is_render_completed
      = some true) := by
  refine ⟨rfl, rfl, ?_⟩
  intro h
  have hnone : (SceneRendererThreaded.stop
      { SceneRendererThreaded.init SceneRenderer.init with
          thread := some { alive := false, terminate_event := false } }).is_render_completed
      = none := rfl
  simpa using hnone.symm.trans h

/-- The function `SceneRenderer.update_render_resolution` does not touch `aov_settings`. -/
theorem update_render_resolution_fst_aov_settings (s : SceneRenderer)
    (r : Option Resolution) :
    (s.update_render_resolution r).1.aov_settings = s.aov_settings := by
  unfold SceneRenderer.update_render_resolution
  rcases htg : s.render_targets <;> simp [htg]

/-- Tile zoom chosen by `_set_render_camera` from the synced camera zoom. -/
def tileZoom : Option ℚ → ℚ × ℚ
  | some z => (z, z)
  | none => (1, 1)

/-- The helper `_set_render_camera` only touches the renderer's `tile_image`. -/
theorem set_render_camera_scene_renderer (s : SceneRendererThreaded)
    (c : Option Camera) :
    (s.set_render_camera c).scene_renderer =
      { s.scene_renderer with tile_image := some (tileZoom s.scene_synced_camera_zoom) } := by
  unfold SceneRendererThreaded.set_render_camera
  rcases hz : s.scene_synced_camera_zoom <;> simp [hz, tileZoom]

/-- The helper `_set_render_camera` does not touch the update inbox. -/
theorem set_render_camera_update_data (s : SceneRendererThreaded)
    (c : Option Camera) :
    (s.set_render_camera c).update_data = s.update_data := by
  unfold SceneRendererThreaded.set_render_camera
  rcases hz : s.scene_synced_camera_zoom <;> simp [hz]

/-! ## Claim C2 -/

/-- C2: `check_updates` applies pending changes in priority order —
resolution (folding in a pending AOV change), then region, then camera —
each applied change setting `need_scene_redraw`; when both a resolution and
an AOV change are pending, the AOV value is consumed and assigned to the
renderer's `aov_settings` as part of the resolution restart and the
incremental `render_layers.update` path is not invoked. -/
theorem C2_check_updates_priority (s : SceneRendererThreaded)
    (hr : s.update_data.render_resolution.has_value = true)
    (ha : s.update_data.aov.has_value = true) :
    (s.check_updates).2 =
      [UpdEvent.setAovSettings s.update_data.aov.value,
       UpdEvent.applyResolution s.update_data.render_resolution.value,
       UpdEvent.setNeedRedraw] ++
      (if s.update_data.render_region.has_value then
        [UpdEvent.applyRegion s.update_data.render_region.value,
         UpdEvent.setNeedRedraw]
       else []) ++
      (if s.update_data.render_camera.has_value then
        [UpdEvent.setCamera s.update_data.render_camera.value,
         UpdEvent.setNeedRedraw]
       else []) ∧
    (∀ a, UpdEvent.renderLayersUpdate a ∉ (s.check_updates).2) ∧
    (s.check_updates).1.scene_renderer.aov_settings = s.update_data.aov.value ∧
    (s.check_updates).1.need_scene_redraw = true ∧
    (s.check_updates).1.update_data.aov.has_value = false ∧
    (s.check_updates).1.update_data.render_resolution.has_value = false := by
  rcases hreg : s.update_data.render_region.has_value with _ | _ <;>
    rcases hcam : s.update_data.render_camera.has_value with _ | _ <;>
      refine ⟨?_, ?_, ?_, ?_, ?_, ?_⟩ <;>
        simp [SceneRendererThreaded.check_updates, hr, ha, hreg, hcam,
          UpdateBlock.pop_value, update_render_resolution_fst_aov_settings,
          SceneRenderer.update_render_region,
          SceneRendererThreaded.set_need_scene_redraw,
          set_render_camera_scene_renderer, set_render_camera_update_data]

/-- Witness for C2 at a concrete coordinator with a resolution change to
800x600 and an AOV change pending together (and the initial region block
still pending). -/
theorem C2_check_updates_priority_check :
    ((SceneRendererThreaded.check_updates
      { SceneRendererThreaded.init SceneRenderer.init with
          update_data := { UpdateData.init with
            render_resolution := ⟨some (800, 600), true, optEq⟩,
            aov := ⟨some 2, true, aovEqual⟩ } }).2 =
      [UpdEvent.setAovSettings (some 2),
       UpdEvent.applyResolution (some (800, 600)),
       UpdEvent.setNeedRedraw] ++
      [UpdEvent.applyRegion none, UpdEvent.setNeedRedraw] ++ []) ∧
    (∀ a, UpdEvent.renderLayersUpdate a ∉
      (SceneRendererThreaded.check_updates
        { SceneRendererThreaded.init SceneRenderer.init with
            update_data := { UpdateData.init with
              render_resolution := ⟨some (800, 600), true, optEq⟩,
              aov := ⟨some 2, true, aovEqual⟩ } }).2) ∧
    ((SceneRendererThreaded.check_updates
      { SceneRendererThreaded.init SceneRenderer.init with
          update_data := { UpdateData.init with
            render_resolution := ⟨some (800, 600), true, optEq⟩,
            aov := ⟨some 2, true, aovEqual⟩ } }).1.scene_renderer.aov_settings
      = some 2) ∧
    ((SceneRendererThreaded.check_updates
      { SceneRendererThreaded.init SceneRenderer.init with
          update_data := { UpdateData.init with
            render_resolution := ⟨some (800, 600), true, optEq⟩,
            aov := ⟨some 2, true, aovEqual⟩ } }).1.need_scene_redraw = true) ∧
    ((SceneRendererThreaded.check_updates
      { SceneRendererThreaded.init SceneRenderer.init with
          update_data := { UpdateData.init with
            render_resolution := ⟨some (800, 600), true, optEq⟩,
            aov := ⟨some 2, true, aovEqual⟩ } }).1.update_data.aov.has_value
      = false) ∧
    ((SceneRendererThreaded.check_updates
      { SceneRendererThreaded.init SceneRenderer.init with
          update_data := { UpdateData.init with
            render_resolution := ⟨some (800, 600), true, optEq⟩,
            aov := ⟨some 2, true, aovEqual⟩ } }).1.update_data.render_resolution.has_value
      = false) := by
  have h := C2_check_updates_priority
      { SceneRendererThreaded.init SceneRenderer.init with
          update_data := { UpdateData.init with
            render_resolution := ⟨some (800, 600), true, optEq⟩,
            aov := ⟨some 2, true, aovEqual⟩ } } rfl rfl
  simpa using h

/-! ## Claim C7 -/

/-- Calling `update_block` never changes the stored equality predicate. -/
theorem update_block_equal {α : Type} (b : UpdateBlock α) (cur nv : α) :
    (UpdateData.update_block b cur nv).equal = b.equal := by
  unfold UpdateData.update_block
  split
  · rfl
  · split
    · split <;> rfl
    · rfl

/-- When the block's predicate is genuine (optional) equality, a pending
value left by `update_block` is the value just offered. -/
theorem update_block_value_latest {α : Type} [DecidableEq α]
    (b : UpdateBlock (Option α)) (cur nv : Option α) (h_eq : b.equal = optEq) :
    (UpdateData.update_block b cur nv).has_value = true →
    (UpdateData.update_block b cur nv).value = nv := by
  unfold UpdateData.update_block
  split
  · rename_i hcond
    intro _
    have h2 := (Bool.and_eq_true _ _).mp hcond
    rw [h_eq] at h2
    have : b.value = nv := by simpa [optEq] using h2.2
    simp [this]
  · split
    · split
      · intro hv
        simp [UpdateBlock.del_value] at hv
      · rename_i hnv
        intro hv
        exact absurd hv hnv
    · intro _
      simp [UpdateBlock.set_value]

/-- Folding a whole update sequence never changes the predicate either. -/
theorem foldl_update_block_equal {α : Type} (cur : α) (vs : List α)
    (b : UpdateBlock α) :
    (vs.foldl (fun bb nv => UpdateData.update_block bb cur nv) b).equal
      = b.equal := by
  induction vs generalizing b with
  | nil => rfl
  | cons v vs ih => rw [List.foldl_cons, ih, update_block_equal]

/-- Running `check_updates` leaves every block of the inbox with nothing pending. -/
theorem check_updates_clears_inbox (s : SceneRendererThreaded) :
    (s.check_updates).1.update_data.render_resolution.has_value = false ∧
    (s.check_updates).1.update_data.aov.has_value = false ∧
    (s.check_updates).1.update_data.render_region.has_value = false ∧
    (s.check_updates).1.update_data.render_camera.has_value = false := by
  rcases hr : s.update_data.render_resolution.has_value with _ | _ <;>
    rcases ha : s.update_data.aov.has_value with _ | _ <;>
      rcases hreg : s.update_data.render_region.has_value with _ | _ <;>
        rcases hcam : s.update_data.render_camera.has_value with _ | _ <;>
          refine ⟨?_, ?_, ?_, ?_⟩ <;>
            simp [SceneRendererThreaded.check_updates, hr, ha, hreg, hcam,
              UpdateBlock.pop_value, SceneRendererThreaded.set_need_scene_redraw,
              set_render_camera_update_data]

/-- Running `check_updates` on an empty inbox changes nothing and applies nothing. -/
theorem check_updates_empty_inbox (s : SceneRendererThreaded)
    (h1 : s.update_data.render_resolution.has_value = false)
    (h2 : s.update_data.aov.has_value = false)
    (h3 : s.update_data.render_region.has_value = false)
    (h4 : s.update_data.render_camera.has_value = false) :
    s.check_updates = (s, []) := by
  simp [SceneRendererThreaded.check_updates, h1, h2, h3, h4]

/-- C7: over any sequence of `update_block` calls on the same block with no
intervening `pop_value`, at most one value is pending afterwards (the single
slot) and, when the predicate is genuine equality, it is the most recently
stored one; in particular enqueuing `update_render_resolution(R1)` then
`update_render_resolution(R2)` with `R2` distinct from the currently applied
resolution leaves exactly `R2` pending, and the next `check_updates`
performs exactly one restart applying `R2` only, with the following
`check_updates` applying nothing. -/
theorem C7_latest_update_wins (cur : Option Resolution)
    (b : UpdateBlock (Option Resolution)) (h_eq : b.equal = optEq)
    (vs : List (Option Resolution)) (v : Option Resolution) :
    (((vs ++ [v]).foldl (fun bb nv => UpdateData.update_block bb cur nv) b).has_value
        = true →
      ((vs ++ [v]).foldl (fun bb nv => UpdateData.update_block bb cur nv) b).value
        = v) ∧
    (∀ (s : SceneRendererThreaded) (R1 R2 : Resolution),
      s.update_data.render_resolution.equal = optEq →
      s.update_data.aov.has_value = false →
      s.update_data.render_region.has_value = false →
      s.update_data.render_camera.has_value = false →
      some R2 ≠ s.render_resolution →
      ((s.update_render_resolution (some R1)).update_render_resolution
          (some R2)).update_data.render_resolution.has_value = true ∧
      ((s.update_render_resolution (some R1)).update_render_resolution
          (some R2)).update_data.render_resolution.value = some R2 ∧
      (((s.update_render_resolution (some R1)).update_render_resolution
          (some R2)).check_updates).2 =
        [UpdEvent.applyResolution (some R2), UpdEvent.setNeedRedraw] ∧
      ((((s.update_render_resolution (some R1)).update_render_resolution
          (some R2)).check_updates).1.check_updates).2 = []) := by
  constructor
  · rw [List.foldl_append]
    exact update_block_value_latest _ cur v
      ((foldl_update_block_equal cur vs b).trans h_eq)
  · intro s R1 R2 heq ha hreg hcam hne
    have hb1eq : (UpdateData.update_block s.update_data.render_resolution
        s.render_resolution (some R1)).equal = optEq :=
      (update_block_equal _ _ _).trans heq
    have hblock :
        ((s.update_render_resolution (some R1)).update_render_resolution
            (some R2)).update_data.render_resolution =
          UpdateData.update_block
            (UpdateData.update_block s.update_data.render_resolution
              s.render_resolution (some R1))
            s.render_resolution (some R2) := by
      simp [SceneRendererThreaded.update_render_resolution]
    have hb2 :
        (UpdateData.update_block
          (UpdateData.update_block s.update_data.render_resolution
            s.render_resolution (some R1))
          s.render_resolution (some R2)).has_value = true ∧
        (UpdateData.update_block
          (UpdateData.update_block s.update_data.render_resolution
            s.render_resolution (some R1))
          s.render_resolution (some R2)).value = some R2 := by
      generalize hb1 : UpdateData.update_block s.update_data.render_resolution
          s.render_resolution (some R1) = b1 at hb1eq
      unfold UpdateData.update_block
      split
      · rename_i hcond
        have h2 := (Bool.and_eq_true _ _).mp hcond
        rw [hb1eq] at h2
        have hval : b1.value = some R2 := by simpa [optEq] using h2.2
        exact ⟨h2.1, hval⟩
      · rw [if_neg (by
          rw [hb1eq]
          simp only [optEq, decide_eq_true_eq]
          exact fun hc => hne hc.symm)]
        simp [UpdateBlock.set_value]
    have ha2 : ((s.update_render_resolution (some R1)).update_render_resolution
        (some R2)).update_data.aov.has_value = false := by
      simpa [SceneRendererThreaded.update_render_resolution] using ha
    have hreg2 : ((s.update_render_resolution (some R1)).update_render_resolution
        (some R2)).update_data.render_region.has_value = false := by
      simpa [SceneRendererThreaded.update_render_resolution] using hreg
    have hcam2 : ((s.update_render_resolution (some R1)).update_render_resolution
        (some R2)).update_data.render_camera.has_value = false := by
      simpa [SceneRendererThreaded.update_render_resolution] using hcam
    refine ⟨hblock ▸ hb2.1, hblock ▸ hb2.2, ?_, ?_⟩
    · simp [SceneRendererThreaded.check_updates, hblock, hb2.1, hb2.2, ha2,
        hreg2, hcam2, UpdateBlock.pop_value,
        SceneRendererThreaded.set_need_scene_redraw]
    · have hclear := check_updates_clears_inbox
        ((s.update_render_resolution (some R1)).update_render_resolution (some R2))
      rw [check_updates_empty_inbox _ hclear.1 hclear.2.1 hclear.2.2.1
        hclear.2.2.2]

/-- Witness for C7: folding updates 640x480 then 800x600 into the initial
resolution block leaves 800x600 pending, and enqueuing 1x1 then 2x2 on a
quiescent coordinator yields one restart applying 2x2. -/
theorem C7_latest_update_wins_check :
    (([some (640, 480)] ++ [some (800, 600)]).foldl
        (fun bb nv => UpdateData.update_block bb none nv)
        UpdateData.init.render_resolution).value = some (800, 600) ∧
    (((SceneRendererThreaded.update_render_resolution
        { SceneRendererThreaded.init SceneRenderer.init with
            update_data := { UpdateData.init with
              render_region := ⟨none, false, optEq⟩ } }
        (some (1, 1))).update_render_resolution (some (2, 2))).check_updates).2 =
      [UpdEvent.applyResolution (some (2, 2)), UpdEvent.setNeedRedraw] := by
  constructor
  · exact (C7_latest_update_wins none UpdateData.init.render_resolution rfl
      [some (640, 480)] (some (800, 600))).1 rfl
  · exact ((C7_latest_update_wins none UpdateData.init.render_resolution rfl
      [] none).2
      { SceneRendererThreaded.init SceneRenderer.init with
          update_data := { UpdateData.init with
            render_region := ⟨none, false, optEq⟩ } }
      (1, 1) (2, 2) rfl rfl rfl rfl (by
        show some ((2 : ℕ), (2 : ℕ)) ≠ none
        simp)).2.2.1
